import Mathlib

/-!
Shallow embedding of the condition-classification-and-dispatch core of the
weather-notification-system repository.

Two handlers are embedded, faithfully following the TypeScript source:

* `src/lambda/daily-summary/fetchWeatherData.ts` — the `handler` export:
  environment defaulting with JS falsiness, credential resolution with a
  Secrets Manager fallback wrapped in try/catch, a skip path when only the
  sentinel key is available, and an axios fetch whose success path counts the
  forecast `list` field and whose failure rethrows.

* `src/lambda/automation/automationHandler.ts` — the `main` export:
  random selection of one of four condition strings via
  `Math.floor(Math.random() * conditions.length)`, a switch that publishes one
  SNS message for Rain and only logs otherwise, and a fixed structured
  response.

External collaborators (Secrets Manager, axios HTTP, SNS) are passed in as
one-shot outcome values, since the source calls each at most once per
invocation.  Runs record the outbound requests that were issued so that
"zero calls" properties are directly expressible.
-/

namespace WeatherSystem

/-- The sentinel placeholder credential from fetchWeatherData.ts line 24:
`DUMMY_KEY_FOR_LOCAL_TESTS`. -/
def sentinel : String := "DUMMY_KEY_FOR_LOCAL_TESTS"

/-- JS `||` defaulting used for `process.env.X || dflt`: an absent variable is
`undefined` (here `none`) and the empty string is falsy, so both fall back to
the default. -/
def jsOr (v : Option String) (dflt : String) : String :=
  match v with
  | none => dflt
  | some s => if s = "" then dflt else s

/-- Response of the Secrets Manager `GetSecretValueCommand`: the
`SecretString` field may be absent (`undefined` in JS). -/
structure SecretResponse where
  secretString : Option String
  deriving DecidableEq

/-- Credential resolution, fetchWeatherData.ts lines 24 to 43.  The secret
store collaborator is a one-shot outcome: `Except.error` is a rejected
`send` (caught by the catch block in the source), `Except.ok` a resolved
response.  Returns the resolved api key together with the number of
secret-store calls made.  The return type has no error channel because the
source wraps the only fallible step in try/catch. -/
def resolveApiKey (envKey : Option String) (store : Except String SecretResponse) :
    String × Nat :=
  let apiKey := jsOr envKey sentinel
  if apiKey = sentinel ∨ apiKey = "" then
    match store with
    | Except.ok secret =>
      -- JS truthiness of `if (secret.SecretString)`: undefined and the
      -- empty string both leave apiKey unchanged.
      (match secret.secretString with
       | some s => if s = "" then (apiKey, 1) else (s, 1)
       | none => (apiKey, 1))
    | Except.error _ => (apiKey, 1)
  else
    (apiKey, 0)

/-- Body of a successful forecast response: `data.list` may be absent.  Entry
contents are never inspected by the handler, only the length of the list, so
entries are modelled as strings. -/
structure ForecastBody where
  list : Option (List String)
  deriving DecidableEq

/-- A successful axios response as destructured by `const { data } = ...`;
the optional chaining `data?.list` means `data` itself may be absent. -/
structure HttpResponse where
  data : Option ForecastBody
  deriving DecidableEq

/-- The `data?.list?.length ?? 0` normalization of fetchWeatherData.ts
lines 55 to 56. -/
def countOf (resp : HttpResponse) : Nat :=
  match resp.data with
  | none => 0
  | some body =>
    match body.list with
    | none => 0
    | some l => l.length

/-- One outbound GET request of fetchWeatherData.ts line 52.  The source
builds the URL by string interpolation; the query parameters are recorded
here pre-assembly.  `q` holds the city before percent-encoding
(`encodeURIComponent` is injective on it), `appid` is interpolated verbatim. -/
structure ApiRequest where
  q : String
  appid : String
  units : String
  deriving DecidableEq

/-- Result value of the fetch handler: line 48 returns
`{ ok: true, message: ... }` and line 56 returns `{ ok: true, count: ... }`.
Both carry `ok: true`; they differ in which second field is present. -/
inductive HandlerResult
  | skipMessage (message : String)
  | countResult (count : Nat)
  deriving DecidableEq

/-- Whether a handler result is the true-success shape `{ ok: true, count }`. -/
def isCountResult : Except String HandlerResult → Bool
  | Except.ok (HandlerResult.countResult _) => true
  | _ => false

/-- A full run of the fetch handler: the effective city, how many
secret-store calls were made, the outbound HTTP requests issued, and the
returned value (`Except.error` models a rejected invocation, line 59
`throw err`). -/
structure HandlerRun where
  city : String
  secretCalls : Nat
  requests : List ApiRequest
  result : Except String HandlerResult

/-- The `handler` export of fetchWeatherData.ts, lines 19 to 61.  `envCity`
and `envKey` are `process.env.CITY` and `process.env.WEATHER_API_KEY`;
`store` is the one-shot Secrets Manager outcome and `http` the one-shot
axios outcome (only consulted if a request is issued). -/
def handler (envCity envKey : Option String) (store : Except String SecretResponse)
    (http : Except String HttpResponse) : HandlerRun :=
  let city := jsOr envCity "Sydney,AU"
  let resolved := resolveApiKey envKey store
  let apiKey := resolved.1
  if apiKey = sentinel then
    { city := city
      secretCalls := resolved.2
      requests := []
      result := Except.ok (HandlerResult.skipMessage "Skipped real API call (dummy key).") }
  else
    let req : ApiRequest := { q := city, appid := apiKey, units := "metric" }
    match http with
    | Except.ok resp =>
      { city := city
        secretCalls := resolved.2
        requests := [req]
        result := Except.ok (HandlerResult.countResult (countOf resp)) }
    | Except.error m =>
      { city := city
        secretCalls := resolved.2
        requests := [req]
        result := Except.error m }

example :
    (handler none none (Except.error "denied") (Except.error "unused")).result
      = Except.ok (HandlerResult.skipMessage "Skipped real API call (dummy key).") := rfl

example :
    (handler none (some "FAKE123") (Except.error "denied")
        (Except.ok ⟨some ⟨some ["a", "b", "c", "d", "e"]⟩⟩)).result
      = Except.ok (HandlerResult.countResult 5) := rfl

example :
    (handler none (some "FAKE123") (Except.error "denied") (Except.error "API down")).result
      = Except.error "API down" := rfl

/-- The four-member condition vocabulary of automationHandler.ts line 33. -/
def conditions : List String := ["Clear", "Rain", "Storm", "Cloudy"]

/-- The array index `Math.floor(Math.random() * conditions.length)` of
automationHandler.ts line 34, with the draw of `Math.random()` passed in as
the rational `r`.  (`r * 4` is exact in IEEE double arithmetic, so the
rational model coincides with the JS computation for every representable
draw.) -/
def randIndex (r : ℚ) : ℤ := Int.floor (r * (conditions.length : ℚ))

/-- The selection `conditions[randIndex r]` of automationHandler.ts line 34.
JS indexing out of the array bounds yields `undefined`, which the switch on
line 41 routes to the default branch; it is modelled by the marker string
"undefined", which equals no member of `conditions`. -/
def selectCondition (r : ℚ) : String :=
  if randIndex r < 0 then "undefined"
  else conditions.getD (randIndex r).toNat "undefined"

/-- The fixed SNS message of automationHandler.ts line 56. -/
def rainMessage : String := "Automated notice: Rain detected. IoT watering system paused."

/-- One SNS `PublishCommand` as built on lines 54 to 57: the topic ARN comes
from `process.env.AUTOMATION_TOPIC_ARN` (possibly undefined) and the message
is fixed. -/
structure SnsPublish where
  topicArn : Option String
  message : String
  deriving DecidableEq

/-- Outcome of the single `sns.send` call: `ok` resolves, `err` rejects with
a message that the awaiting handler rethrows. -/
inductive PublishOutcome
  | ok
  | err (message : String)
  deriving DecidableEq

/-- A run of the switch of automationHandler.ts lines 41 to 72: the publish
commands sent, and whether the switch completed or a rejected publish
escaped. -/
structure DispatchRun where
  publishes : List SnsPublish
  outcome : Except String Unit

/-- The switch statement of automationHandler.ts lines 41 to 72.  Storm,
Clear and the default (Cloudy) branches only log; the Rain branch awaits one
`sns.send` of the fixed message to the configured topic, and a rejection
propagates. -/
def dispatch (selected : String) (topicArn : Option String) (pub : PublishOutcome) :
    DispatchRun :=
  if selected = "Storm" then
    { publishes := [], outcome := Except.ok () }
  else if selected = "Rain" then
    match pub with
    | PublishOutcome.ok =>
      { publishes := [{ topicArn := topicArn, message := rainMessage }]
        outcome := Except.ok () }
    | PublishOutcome.err m =>
      { publishes := [{ topicArn := topicArn, message := rainMessage }]
        outcome := Except.error m }
  else if selected = "Clear" then
    { publishes := [], outcome := Except.ok () }
  else
    { publishes := [], outcome := Except.ok () }

/-- The structured response returned on automationHandler.ts lines 77 to 81. -/
structure MainResponse where
  statusCode : Nat
  condition : String
  message : String
  deriving DecidableEq

/-- A run of the automation handler: the selected condition, the publish
commands sent, and the returned response (or the propagated rejection). -/
structure MainRun where
  selected : String
  publishes : List SnsPublish
  result : Except String MainResponse

/-- The `main` export of automationHandler.ts, lines 26 to 82, with the
`Math.random()` draw, the `AUTOMATION_TOPIC_ARN` environment variable, and
the one-shot SNS outcome passed in. -/
def main (r : ℚ) (topicArn : Option String) (pub : PublishOutcome) : MainRun :=
  let selected := selectCondition r
  let d := dispatch selected topicArn pub
  match d.outcome with
  | Except.error m =>
    { selected := selected, publishes := d.publishes, result := Except.error m }
  | Except.ok _ =>
    { selected := selected
      publishes := d.publishes
      result := Except.ok
        { statusCode := 200, condition := selected, message := "Automation simulation complete." } }

/-- Evaluation lemma: the draw 0 selects Clear, matching the unit test that
mocks `Math.random` to 0.0. -/
lemma selectCondition_zero : selectCondition 0 = "Clear" := by
  simp [selectCondition, randIndex, conditions]

/-- Evaluation lemma: the draw 0.3 selects Rain, matching the unit test that
mocks `Math.random` to 0.3 for the Rain branch. -/
lemma selectCondition_rain : selectCondition (3 / 10) = "Rain" := by
  norm_num [selectCondition, randIndex, conditions]

/-- Evaluation lemma: the draw 0.5 selects Storm, matching the unit test that
mocks `Math.random` to 0.5 for the Storm branch. -/
lemma selectCondition_storm : selectCondition (1 / 2) = "Storm" := by
  norm_num [selectCondition, randIndex, conditions]
  rfl

/-- Evaluation lemma: the draw 0.8 selects Cloudy, matching the unit test
that mocks `Math.random` to 0.8 for the default branch. -/
lemma selectCondition_cloudy : selectCondition (4 / 5) = "Cloudy" := by
  norm_num [selectCondition, randIndex, conditions]
  rfl

example :
    (main (3 / 10) (some "arn:automation") PublishOutcome.ok).publishes
      = [{ topicArn := some "arn:automation", message := rainMessage }] := by
  simp only [main, dispatch, selectCondition_rain]
  rfl

example :
    (main (1 / 2) none PublishOutcome.ok).result
      = Except.ok
          { statusCode := 200, condition := "Storm", message := "Automation simulation complete." } := by
  simp only [main, dispatch, selectCondition_storm]
  rfl

example :
    (main (3 / 10) none (PublishOutcome.err "sns down")).result = Except.error "sns down" := by
  simp only [main, dispatch, selectCondition_rain]
  rfl

/-- Claim C2: for every invocation in which the resolved credential equals
the sentinel, the fetch step issues zero outbound HTTP calls and returns the
successful skip value with the fixed message, and that value is not the
count-carrying true-success shape. -/
theorem sentinel_resolution_skips_fetch
    (envCity envKey : Option String) (store : Except String SecretResponse)
    (http : Except String HttpResponse)
    (h : (resolveApiKey envKey store).1 = sentinel) :
    (handler envCity envKey store http).requests = []
      ∧ (handler envCity envKey store http).result
          = Except.ok (HandlerResult.skipMessage "Skipped real API call (dummy key).")
      ∧ isCountResult (handler envCity envKey store http).result = false := by
  simp [handler, h, isCountResult]

/-- Witness for C2: no injected key and an access-denied secret store leave
the sentinel in place, so the run skips with zero requests. -/
theorem sentinel_resolution_skips_fetch_spot :
    (handler none none (Except.error "denied") (Except.error "unused")).requests = []
      ∧ (handler none none (Except.error "denied") (Except.error "unused")).result
          = Except.ok (HandlerResult.skipMessage "Skipped real API call (dummy key).")
      ∧ isCountResult (handler none none (Except.error "denied") (Except.error "unused")).result
          = false :=
  sentinel_resolution_skips_fetch none none (Except.error "denied") (Except.error "unused") rfl

/-- Claim C3: credential resolution never throws — its result type has no
error channel because the source catches the only fallible step — and on a
failed lookup the error is swallowed: the key keeps its defaulted value, and
a lookup is attempted (count 1) exactly when that value is the sentinel, in
which case the key returned is the sentinel itself. -/
theorem resolve_swallows_lookup_failure (envKey : Option String) (m : String) :
    resolveApiKey envKey (Except.error m)
      = (jsOr envKey sentinel, if jsOr envKey sentinel = sentinel then 1 else 0) := by
  cases envKey with
  | none => simp [resolveApiKey, jsOr]
  | some s =>
    by_cases hs : s = ""
    · simp [resolveApiKey, jsOr, hs]
    · by_cases hsent : s = sentinel
      · simp [resolveApiKey, jsOr, hs, hsent]
      · simp [resolveApiKey, jsOr, hs, hsent]

/-- Claim C4: for every non-sentinel resolved credential and every transport
failure, the fetch step propagates the failure unchanged — the caller sees
exactly the injected error message — after issuing exactly one request, and
no fallback success value is returned. -/
theorem fetch_failure_propagates
    (envCity envKey : Option String) (store : Except String SecretResponse) (m : String)
    (h : (resolveApiKey envKey store).1 ≠ sentinel) :
    (handler envCity envKey store (Except.error m)).result = Except.error m
      ∧ (handler envCity envKey store (Except.error m)).requests.length = 1 := by
  simp [handler, h]

/-- Witness for C4: the unit-test scenario with injected key FAKE123 and a
mocked rejection with message API down rejects with exactly that message. -/
theorem fetch_failure_propagates_spot :
    (handler none (some "FAKE123") (Except.error "denied") (Except.error "API down")).result
        = Except.error "API down"
      ∧ (handler none (some "FAKE123") (Except.error "denied")
          (Except.error "API down")).requests.length = 1 :=
  fetch_failure_propagates none (some "FAKE123") (Except.error "denied") "API down" (by decide)

/-- Claim C5: for every non-sentinel resolved credential and a successful
response, the handler returns the count-carrying success whose count is the
length of the list field; an absent list field and an absent data body both
normalize to count 0 instead of throwing. -/
theorem fetch_success_counts_list
    (envCity envKey : Option String) (store : Except String SecretResponse)
    (l : List String)
    (h : (resolveApiKey envKey store).1 ≠ sentinel) :
    (handler envCity envKey store (Except.ok ⟨some ⟨some l⟩⟩)).result
        = Except.ok (HandlerResult.countResult l.length)
      ∧ (handler envCity envKey store (Except.ok ⟨some ⟨none⟩⟩)).result
        = Except.ok (HandlerResult.countResult 0)
      ∧ (handler envCity envKey store (Except.ok ⟨none⟩)).result
        = Except.ok (HandlerResult.countResult 0) := by
  simp [handler, h, countOf]

/-- Witness for C5: the unit-test scenario with injected key FAKE123 and a
mocked five-entry list returns count 5; emptied bodies return count 0. -/
theorem fetch_success_counts_list_spot :
    (handler none (some "FAKE123") (Except.error "denied")
        (Except.ok ⟨some ⟨some ["e1", "e2", "e3", "e4", "e5"]⟩⟩)).result
        = Except.ok (HandlerResult.countResult 5)
      ∧ (handler none (some "FAKE123") (Except.error "denied")
          (Except.ok ⟨some ⟨none⟩⟩)).result = Except.ok (HandlerResult.countResult 0)
      ∧ (handler none (some "FAKE123") (Except.error "denied")
          (Except.ok ⟨none⟩)).result = Except.ok (HandlerResult.countResult 0) :=
  fetch_success_counts_list none (some "FAKE123") (Except.error "denied")
    ["e1", "e2", "e3", "e4", "e5"] (by decide)

/-- Claim C7: every non-empty, non-sentinel injected credential is returned
unchanged with zero secret-store calls, and it is the exact appid embedded in
the single outbound request. -/
theorem injected_credential_fast_path
    (envCity : Option String) (store : Except String SecretResponse)
    (http : Except String HttpResponse) (k : String)
    (h1 : k ≠ "") (h2 : k ≠ sentinel) :
    resolveApiKey (some k) store = (k, 0)
      ∧ (handler envCity (some k) store http).secretCalls = 0
      ∧ (handler envCity (some k) store http).requests
          = [{ q := jsOr envCity "Sydney,AU", appid := k, units := "metric" }] := by
  have hres : resolveApiKey (some k) store = (k, 0) := by
    simp [resolveApiKey, jsOr, h1, h2]
  refine ⟨hres, ?_, ?_⟩ <;> cases http <;> simp [handler, hres, h2]

/-- Witness for C7: injected key FAKE123 with a failing secret store reaches
the fetch with appid FAKE123, zero secret-store calls. -/
theorem injected_credential_fast_path_spot :
    resolveApiKey (some "FAKE123") (Except.error "denied") = ("FAKE123", 0)
      ∧ (handler none (some "FAKE123") (Except.error "denied")
          (Except.ok ⟨none⟩)).secretCalls = 0
      ∧ (handler none (some "FAKE123") (Except.error "denied")
          (Except.ok ⟨none⟩)).requests
          = [{ q := "Sydney,AU", appid := "FAKE123", units := "metric" }] :=
  injected_credential_fast_path none (Except.error "denied") (Except.ok ⟨none⟩)
    "FAKE123" (by decide) (by decide)

/-- Claim C9: when the injected credential is absent, empty or the sentinel
and the secret lookup succeeds but carries an absent or empty SecretString,
the handler keeps the sentinel and takes the skip path: zero outbound
requests and the skip success value. -/
theorem empty_secret_keeps_sentinel_skip
    (envCity envKey : Option String) (ss : Option String)
    (http : Except String HttpResponse)
    (hk : envKey = none ∨ envKey = some "" ∨ envKey = some sentinel)
    (hs : ss = none ∨ ss = some "") :
    (handler envCity envKey (Except.ok ⟨ss⟩) http).requests = []
      ∧ (handler envCity envKey (Except.ok ⟨ss⟩) http).result
          = Except.ok (HandlerResult.skipMessage "Skipped real API call (dummy key).") := by
  have hres : (resolveApiKey envKey (Except.ok ⟨ss⟩)).1 = sentinel := by
    rcases hk with h | h | h <;> rcases hs with h2 | h2 <;>
      simp [resolveApiKey, jsOr, sentinel, h, h2]
  simp [handler, hres]

/-- Witness for C9: sentinel injected key and a successful lookup returning
an empty SecretString still skip with zero requests. -/
theorem empty_secret_keeps_sentinel_skip_spot :
    (handler none (some sentinel) (Except.ok ⟨some ""⟩) (Except.error "unused")).requests = []
      ∧ (handler none (some sentinel) (Except.ok ⟨some ""⟩) (Except.error "unused")).result
          = Except.ok (HandlerResult.skipMessage "Skipped real API call (dummy key).") :=
  empty_secret_keeps_sentinel_skip none (some sentinel) (some "") (Except.error "unused")
    (Or.inr (Or.inr rfl)) (Or.inr rfl)

/-- Claim C1: the switch performs exactly the action of the fixed table for
every classified category and every publish outcome: Rain sends exactly one
publish, carrying the fixed non-empty message and the configured topic ARN;
Storm, Clear and Cloudy send zero publishes. -/
theorem dispatch_follows_table (topicArn : Option String) (pub : PublishOutcome) :
    (dispatch "Rain" topicArn pub).publishes
        = [{ topicArn := topicArn, message := rainMessage }]
      ∧ rainMessage ≠ ""
      ∧ (dispatch "Storm" topicArn pub).publishes = []
      ∧ (dispatch "Clear" topicArn pub).publishes = []
      ∧ (dispatch "Cloudy" topicArn pub).publishes = [] := by
  cases pub <;> exact ⟨rfl, by decide, rfl, rfl, rfl⟩

/-- Claim C8: for every draw r of the random source with 0 ≤ r < 1, the
computed index lies inside the four-element condition array, so the selected
value is one of the four enumeration members and never the out-of-bounds
undefined marker. -/
theorem classifier_index_in_range (r : ℚ) (h0 : 0 ≤ r) (h1 : r < 1) :
    0 ≤ randIndex r ∧ randIndex r < 4 ∧ selectCondition r ∈ conditions := by
  have hlen : ((conditions.length : ℕ) : ℚ) = 4 := by norm_num [conditions]
  have hge : 0 ≤ randIndex r := by
    simp only [randIndex]
    exact Int.le_floor.mpr (by push_cast; nlinarith)
  have hlt : randIndex r < 4 := by
    simp only [randIndex]
    exact Int.floor_lt.mpr (by push_cast; nlinarith)
  refine ⟨hge, hlt, ?_⟩
  have h4 : (randIndex r).toNat = 0 ∨ (randIndex r).toNat = 1
      ∨ (randIndex r).toNat = 2 ∨ (randIndex r).toNat = 3 := by omega
  rcases h4 with h | h | h | h <;>
    simp [selectCondition, if_neg (not_lt.mpr hge), h, conditions]

/-- Witness for C8: the draw 0 gives a selected condition inside the
four-member vocabulary. -/
theorem classifier_index_in_range_spot :
    0 ≤ randIndex 0 ∧ randIndex 0 < 4 ∧ selectCondition 0 ∈ conditions :=
  classifier_index_in_range 0 (le_refl 0) zero_lt_one

/-- Claim C10: whenever the automation handler completes without a publish
failure for a draw in [0, 1), the returned value is exactly the structured
response with status 200, the fixed completion message, and the same
condition that was selected and dispatched. -/
theorem automation_response_matches_dispatch
    (r : ℚ) (topicArn : Option String) (pub : PublishOutcome) (resp : MainResponse)
    (h0 : 0 ≤ r) (h1 : r < 1)
    (h : (main r topicArn pub).result = Except.ok resp) :
    resp = { statusCode := 200
             condition := (main r topicArn pub).selected
             message := "Automation simulation complete." }
      ∧ (main r topicArn pub).selected = selectCondition r := by
  have hsel : (main r topicArn pub).selected = selectCondition r := by
    cases hd : (dispatch (selectCondition r) topicArn pub).outcome <;> simp [main, hd]
  refine ⟨?_, hsel⟩
  cases hd : (dispatch (selectCondition r) topicArn pub).outcome with
  | error m => exfalso; simp [main, hd] at h
  | ok u =>
    simp [main, hd] at h
    rw [hsel]
    exact h.symm

/-- Witness for C10: the draw 0 with a resolving publisher completes and
returns status 200 with condition Clear and the fixed message. -/
theorem automation_response_matches_dispatch_spot :
    ({ statusCode := 200, condition := "Clear", message := "Automation simulation complete." }
        : MainResponse)
        = { statusCode := 200
            condition := (main 0 none PublishOutcome.ok).selected
            message := "Automation simulation complete." }
      ∧ (main 0 none PublishOutcome.ok).selected = selectCondition 0 :=
  automation_response_matches_dispatch 0 none PublishOutcome.ok
    { statusCode := 200, condition := "Clear", message := "Automation simulation complete." }
    (le_refl 0) zero_lt_one
    (by simp only [main, dispatch, selectCondition_zero]; rfl)

end WeatherSystem
